import Mathlib

/-!
Verification of the snowydudes repository: a FastAPI service
(src/fantasy-football-app/backend/app/main.py) exposing a single
health-check route behind a CORS middleware, and a scaffolding script
(src/setup-script.py) that writes the project tree to disk.

The HTTP layer is shallowly embedded: a request is a method, a path,
a header list and a body; a response is a status, a header list and a
body.  Header names are case-insensitive in HTTP; response header
names are modelled in lower case throughout (every name the model
emits is lower case), and request header lookup lowercases stored
names, so clients may send any case.

The CORS middleware is the external collaborator configured in
main.py (starlette.middleware.cors.CORSMiddleware, the version shipped
with fastapi 0.104.1); its behaviour is embedded from that library
since main.py delegates policy enforcement to it with the literal
arguments allow_origins, allow_credentials, allow_methods and
allow_headers of lines 6-12.
-/

namespace Snowydudes

/-- ASCII lower-casing of a character (str.lower for header names). -/
def lowerChar (c : Char) : Char :=
  if 65 ≤ c.toNat ∧ c.toNat ≤ 90 then Char.ofNat (c.toNat + 32) else c

/-- ASCII lower-casing of a string. -/
def lowerString (s : String) : String := ⟨s.data.map lowerChar⟩

/-- Whether a (lower-case) header name is an access-control response
header, the family of names the CORS middleware owns. -/
def isCorsHeaderName (s : String) : Bool :=
  "access-control-".data.isPrefixOf s.data

/-- An HTTP request as seen by the ASGI application: method, path,
header list (name-value pairs, names in arbitrary case) and body. -/
structure Request where
  method : String
  path : String
  headers : List (String × String)
  body : String
deriving DecidableEq, Repr

/-- An HTTP response: status code, header list (names in lower case)
and body. -/
structure Response where
  status : Nat
  headers : List (String × String)
  body : String
deriving DecidableEq, Repr

/-- Case-insensitive request-header lookup: the first header whose
name lowercases to the (lower-case) query name. -/
def headerGet (hs : List (String × String)) (nm : String) : Option String :=
  (hs.find? (fun kv => lowerString kv.1 == nm)).map (fun kv => kv.2)

/-- Response-header lookup (response names are already lower case). -/
def respHeaderGet (hs : List (String × String)) (nm : String) : Option String :=
  (hs.find? (fun kv => kv.1 == nm)).map (fun kv => kv.2)

/-- Set a response header: remove any pair with the same name, then
append the new pair.  Mirrors starlette's MutableHeaders.__setitem__
(case-insensitive there; names are lower case here). -/
def setHeader (hs : List (String × String)) (nm v : String) : List (String × String) :=
  hs.filter (fun kv => kv.1 != nm) ++ [(nm, v)]

/-- Append Origin to the Vary response header, creating it if absent.
Mirrors starlette's MutableHeaders.add_vary_header. -/
def addVaryOrigin (hs : List (String × String)) : List (String × String) :=
  match respHeaderGet hs "vary" with
  | some v => setHeader hs "vary" (v ++ ", Origin")
  | none => setHeader hs "vary" "Origin"

/-- The CORS configuration: the four keyword arguments passed to
app.add_middleware in main.py lines 6-12. -/
structure CORSConfig where
  allow_origins : List String
  allow_credentials : Bool
  allow_methods : List String
  allow_headers : List String
deriving DecidableEq, Repr

/-- The literal configuration from main.py lines 6-12. -/
def appCORSConfig : CORSConfig :=
  { allow_origins := ["http://localhost:5173"]
    allow_credentials := true
    allow_methods := ["*"]
    allow_headers := ["*"] }

/-- starlette's ALL_METHODS constant, substituted when allow_methods
contains the wildcard. -/
def ALL_METHODS : List String :=
  ["DELETE", "GET", "HEAD", "OPTIONS", "PATCH", "POST", "PUT"]

/-- starlette's CORS-safelisted request headers. -/
def SAFELISTED_HEADERS : List String :=
  ["Accept", "Accept-Language", "Content-Language", "Content-Type"]

/-- Whether the wildcard origin is configured (allow_all_origins). -/
def allowAllOrigins (c : CORSConfig) : Bool :=
  c.allow_origins.contains "*"

/-- Whether the wildcard header allowance is configured
(allow_all_headers). -/
def allowAllHeaders (c : CORSConfig) : Bool :=
  c.allow_headers.contains "*"

/-- The effective method allow-list: the wildcard expands to
ALL_METHODS in CORSMiddleware.__init__. -/
def effectiveAllowMethods (c : CORSConfig) : List String :=
  if c.allow_methods.contains "*" then ALL_METHODS else c.allow_methods

/-- preflight_explicit_allow_origin in CORSMiddleware.__init__. -/
def preflightExplicitAllowOrigin (c : CORSConfig) : Bool :=
  !allowAllOrigins c || c.allow_credentials

/-- The simple_headers dictionary built in CORSMiddleware.__init__
(expose_headers is not configured in main.py, so its entry is absent). -/
def simpleHeaders (c : CORSConfig) : List (String × String) :=
  (if allowAllOrigins c then [("access-control-allow-origin", "*")] else [])
  ++ (if c.allow_credentials then [("access-control-allow-credentials", "true")] else [])

/-- The header allow-list used for non-wildcard configurations:
safelisted headers joined with the configured ones (dead for the
configuration in main.py, which uses the wildcard). -/
def corsAllowHeadersList (c : CORSConfig) : List String :=
  (SAFELISTED_HEADERS ++ c.allow_headers.filter (fun h => h != "*")).dedup

/-- The preflight_headers dictionary built in CORSMiddleware.__init__. -/
def preflightHeadersBase (c : CORSConfig) : List (String × String) :=
  (if preflightExplicitAllowOrigin c then [("vary", "Origin")]
   else [("access-control-allow-origin", "*")])
  ++ [("access-control-allow-methods", String.intercalate ", " (effectiveAllowMethods c)),
      ("access-control-max-age", "600")]
  ++ (if !allowAllHeaders c then
        [("access-control-allow-headers", String.intercalate ", " (corsAllowHeadersList c))]
      else [])
  ++ (if c.allow_credentials then [("access-control-allow-credentials", "true")] else [])

/-- is_allowed_origin (no allow_origin_regex is configured in main.py). -/
def isAllowedOrigin (c : CORSConfig) (origin : String) : Bool :=
  allowAllOrigins c || c.allow_origins.contains origin

/-- The per-requested-header check of preflight_response for
non-wildcard header configurations (dead for main.py's wildcard). -/
def requestedHeadersOk (c : CORSConfig) (rh : String) : Bool :=
  (rh.splitOn ",").all (fun h => (corsAllowHeadersList c).contains (lowerString h).trim)

/-- Origin check of preflight_response on a request's headers. -/
def preflightOriginOk (c : CORSConfig) (reqHeaders : List (String × String)) : Bool :=
  isAllowedOrigin c ((headerGet reqHeaders "origin").getD "")

/-- Method check of preflight_response on a request's headers. -/
def preflightMethodOk (c : CORSConfig) (reqHeaders : List (String × String)) : Bool :=
  (effectiveAllowMethods c).contains ((headerGet reqHeaders "access-control-request-method").getD "")

/-- Requested-headers check of preflight_response. -/
def preflightHeadersOk (c : CORSConfig) (reqHeaders : List (String × String)) : Bool :=
  match headerGet reqHeaders "access-control-request-headers" with
  | some rh => allowAllHeaders c || requestedHeadersOk c rh
  | none => true

/-- Preflight response headers after the explicit allow-origin step
of preflight_response. -/
def preflightHs1 (c : CORSConfig) (reqHeaders : List (String × String)) : List (String × String) :=
  if preflightOriginOk c reqHeaders && preflightExplicitAllowOrigin c then
    setHeader (preflightHeadersBase c) "access-control-allow-origin"
      ((headerGet reqHeaders "origin").getD "")
  else preflightHeadersBase c

/-- Preflight response headers after the allow-headers echo step of
preflight_response. -/
def preflightHs2 (c : CORSConfig) (reqHeaders : List (String × String)) : List (String × String) :=
  match headerGet reqHeaders "access-control-request-headers" with
  | some rh =>
    if allowAllHeaders c then setHeader (preflightHs1 c reqHeaders) "access-control-allow-headers" rh
    else preflightHs1 c reqHeaders
  | none => preflightHs1 c reqHeaders

/-- The failure list accumulated by preflight_response. -/
def preflightFailures (c : CORSConfig) (reqHeaders : List (String × String)) : List String :=
  (if preflightOriginOk c reqHeaders then [] else ["origin"])
  ++ (if preflightMethodOk c reqHeaders then [] else ["method"])
  ++ (if preflightHeadersOk c reqHeaders then [] else ["headers"])

/-- CORSMiddleware.preflight_response: answers a preflight request
from the policy alone, without calling the wrapped application. -/
def preflightResponse (c : CORSConfig) (reqHeaders : List (String × String)) : Response :=
  let hs := setHeader (preflightHs2 c reqHeaders) "content-type" "text/plain; charset=utf-8"
  if preflightOriginOk c reqHeaders
      && (preflightMethodOk c reqHeaders && preflightHeadersOk c reqHeaders) then
    { status := 200, headers := hs, body := "OK" }
  else
    { status := 400, headers := hs
      body := "Disallowed CORS " ++ String.intercalate ", " (preflightFailures c reqHeaders) }

/-- Headers produced by CORSMiddleware.send for a non-preflight
request carrying an Origin header: the wrapped application's headers
updated with the simple headers and, when the origin is allowed (or
all origins are allowed and a cookie is present), an explicit
Access-Control-Allow-Origin plus Vary. -/
def simpleWrapHeaders (c : CORSConfig) (reqHeaders respHeaders : List (String × String)) :
    List (String × String) :=
  let origin := (headerGet reqHeaders "origin").getD ""
  let hasCookie := (headerGet reqHeaders "cookie").isSome
  let hs1 := (simpleHeaders c).foldl (fun acc kv => setHeader acc kv.1 kv.2) respHeaders
  if allowAllOrigins c && hasCookie then
    addVaryOrigin (setHeader hs1 "access-control-allow-origin" origin)
  else if !allowAllOrigins c && isAllowedOrigin c origin then
    addVaryOrigin (setHeader hs1 "access-control-allow-origin" origin)
  else hs1

/-- CORSMiddleware.send applied to the wrapped application's response:
status and body pass through, headers are decorated. -/
def simpleWrap (c : CORSConfig) (reqHeaders : List (String × String)) (resp : Response) : Response :=
  { resp with headers := simpleWrapHeaders c reqHeaders resp.headers }

/-- Whether a request is a CORS preflight: OPTIONS method with both an
Origin and an Access-Control-Request-Method header (the two conditions
CORSMiddleware.__call__ tests after finding an Origin header). -/
def isPreflight (req : Request) : Bool :=
  (headerGet req.headers "origin").isSome
  && (req.method == "OPTIONS")
  && (headerGet req.headers "access-control-request-method").isSome

/-- CORSMiddleware.__call__: requests without an Origin header pass
through untouched; preflights are answered by the middleware; every
other request is forwarded and its response decorated. -/
def corsMiddleware (c : CORSConfig) (app : Request → Response) (req : Request) : Response :=
  match headerGet req.headers "origin" with
  | none => app req
  | some _ =>
    if req.method == "OPTIONS"
        && (headerGet req.headers "access-control-request-method").isSome then
      preflightResponse c req.headers
    else
      simpleWrap c req.headers (app req)

/-- The route path of main.py line 14. -/
def healthPath : String := "/api/v1/health-check"

/-- The dictionary returned by health_check (main.py lines 15-16). -/
def health_check : List (String × String) := [("status", "healthy")]

/-- JSON rendering of a flat string-valued mapping, as FastAPI's
JSONResponse serialises the handler's return value (compact
separators, no spaces). -/
def jsonOfPairs (kvs : List (String × String)) : String :=
  "\x7b" ++ String.intercalate ","
      (kvs.map (fun kv => "\"" ++ kv.1 ++ "\":\"" ++ kv.2 ++ "\"")) ++ "\x7d"

/-- Body of FastAPI's default 404 handler. -/
def notFoundBody : String := "\x7b\"detail\":\"Not Found\"\x7d"

/-- Body of FastAPI's default 405 handler. -/
def methodNotAllowedBody : String := "\x7b\"detail\":\"Method Not Allowed\"\x7d"

/-- The routing layer of the FastAPI application of main.py: a single
GET route at healthPath whose handler is health_check; any other
method on that path yields the hosting layer's 405, any other path its
404. -/
def routerApp (req : Request) : Response :=
  if req.path == healthPath then
    if req.method == "GET" then
      { status := 200
        headers := [("content-type", "application/json")]
        body := jsonOfPairs health_check }
    else
      { status := 405
        headers := [("allow", "GET"), ("content-type", "application/json")]
        body := methodNotAllowedBody }
  else
    { status := 404
      headers := [("content-type", "application/json")]
      body := notFoundBody }

/-- The whole service of main.py: the router wrapped in the CORS
middleware with the literal configuration. -/
def serviceApp (req : Request) : Response :=
  corsMiddleware appCORSConfig routerApp req

/-- The serialised health-check body. -/
def healthBody : String := jsonOfPairs health_check

/-- The running service's state: the process metadata and CORS policy
fixed at startup (main.py lines 4-12).  The application holds no other
state. -/
structure ServiceState where
  title : String
  cors : CORSConfig
deriving DecidableEq, Repr

/-- The state after startup: the FastAPI title of main.py line 4 and
the CORS policy of lines 6-12. -/
def startupState : ServiceState :=
  { title := "Fantasy Football League API", cors := appCORSConfig }

/-- Handling one request: main.py contains no assignment to any
process-wide object, so the state is returned unchanged alongside the
response computed from it. -/
def handleRequest (s : ServiceState) (req : Request) : ServiceState × Response :=
  (s, corsMiddleware s.cors routerApp req)

/-- Handling a whole trace of requests, threading the state. -/
def processRequests (s : ServiceState) : List Request → ServiceState
  | [] => s
  | req :: rest => processRequests (handleRequest s req).1 rest

/-- The access-control response headers of a response: the part of the
header list the CORS policy is responsible for. -/
def corsHeaders (r : Response) : List (String × String) :=
  r.headers.filter (fun kv => isCorsHeaderName kv.1)

end Snowydudes

namespace Snowydudes

/-! ### Basic lemmas about the middleware plumbing -/

theorem simpleWrap_status (c : CORSConfig) (rh : List (String × String)) (r : Response) :
    (simpleWrap c rh r).status = r.status := rfl

theorem simpleWrap_body (c : CORSConfig) (rh : List (String × String)) (r : Response) :
    (simpleWrap c rh r).body = r.body := rfl

theorem routerApp_get_health (req : Request) (hm : req.method = "GET") (hp : req.path = healthPath) :
    routerApp req =
      { status := 200, headers := [("content-type", "application/json")], body := healthBody } := by
  simp [routerApp, hm, hp, healthBody]

theorem routerApp_other_method (req : Request) (hm : req.method ≠ "GET") (hp : req.path = healthPath) :
    routerApp req =
      { status := 405, headers := [("allow", "GET"), ("content-type", "application/json")]
        body := methodNotAllowedBody } := by
  simp [routerApp, hm, hp]

theorem corsMiddleware_passthrough (c : CORSConfig) (app : Request → Response) (req : Request)
    (h : isPreflight req = false) :
    (corsMiddleware c app req).status = (app req).status
      ∧ (corsMiddleware c app req).body = (app req).body := by
  unfold corsMiddleware
  cases hO : headerGet req.headers "origin" with
  | none => exact ⟨rfl, rfl⟩
  | some o =>
    have hc : (req.method == "OPTIONS"
        && (headerGet req.headers "access-control-request-method").isSome) = false := by
      unfold isPreflight at h
      rw [hO] at h
      simpa using h
    simp [hc, simpleWrap]

theorem not_preflight_of_get (req : Request) (hm : req.method = "GET") :
    isPreflight req = false := by
  simp [isPreflight, hm]

/-! ### C1, C2, C5, C6 -/

/-- C1: every GET request to /api/v1/health-check, whatever its
headers and body, receives status 200 with body exactly
the JSON rendering of the mapping with status "healthy". -/
theorem health_route_returns_healthy (req : Request)
    (hm : req.method = "GET") (hp : req.path = healthPath) :
    (serviceApp req).status = 200 ∧ (serviceApp req).body = healthBody := by
  have hpass := corsMiddleware_passthrough appCORSConfig routerApp req (not_preflight_of_get req hm)
  unfold serviceApp
  rw [hpass.1, hpass.2, routerApp_get_health req hm hp]
  exact ⟨rfl, rfl⟩

/-- Witness for C1 at the concrete bare GET request. -/
theorem health_route_returns_healthy_witness :
    (serviceApp ⟨"GET", "/api/v1/health-check", [], ""⟩).status = 200
      ∧ (serviceApp ⟨"GET", "/api/v1/health-check", [], ""⟩).body = healthBody :=
  health_route_returns_healthy ⟨"GET", "/api/v1/health-check", [], ""⟩ rfl rfl

/-- C2: the health-check operation is deterministic and
side-effect-free: any two invocations, from any service state and any
two GET requests to the route, produce identical bodies, and no
invocation changes the service state. -/
theorem health_route_deterministic_stateless (s : ServiceState) (r1 r2 : Request)
    (h1m : r1.method = "GET") (h1p : r1.path = healthPath)
    (h2m : r2.method = "GET") (h2p : r2.path = healthPath) :
    (handleRequest s r1).2.body = (handleRequest s r2).2.body
      ∧ (handleRequest s r1).1 = s := by
  refine ⟨?_, rfl⟩
  have p1 := corsMiddleware_passthrough s.cors routerApp r1 (not_preflight_of_get r1 h1m)
  have p2 := corsMiddleware_passthrough s.cors routerApp r2 (not_preflight_of_get r2 h2m)
  show (corsMiddleware s.cors routerApp r1).body = (corsMiddleware s.cors routerApp r2).body
  rw [p1.2, p2.2, routerApp_get_health r1 h1m h1p, routerApp_get_health r2 h2m h2p]

/-- Witness for C2 at two concrete requests differing in headers and
body, from the startup state. -/
theorem health_route_deterministic_stateless_witness :
    (handleRequest startupState
        ⟨"GET", "/api/v1/health-check", [("Origin", "http://localhost:5173")], ""⟩).2.body
      = (handleRequest startupState ⟨"GET", "/api/v1/health-check", [], "x"⟩).2.body
    ∧ (handleRequest startupState
        ⟨"GET", "/api/v1/health-check", [("Origin", "http://localhost:5173")], ""⟩).1
      = startupState :=
  health_route_deterministic_stateless startupState
    ⟨"GET", "/api/v1/health-check", [("Origin", "http://localhost:5173")], ""⟩
    ⟨"GET", "/api/v1/health-check", [], "x"⟩ rfl rfl rfl rfl

theorem corsMiddleware_eq_preflight (c : CORSConfig) (app : Request → Response) (req : Request)
    (h : isPreflight req = true) :
    corsMiddleware c app req = preflightResponse c req.headers := by
  unfold isPreflight at h
  cases hO : headerGet req.headers "origin" with
  | none => rw [hO] at h; simp at h
  | some o =>
    rw [hO] at h
    simp only [Option.isSome_some, Bool.true_and] at h
    simp [corsMiddleware, hO, h]

theorem routerApp_status_mem (req : Request) :
    (routerApp req).status ∈ ([200, 404, 405] : List Nat) := by
  unfold routerApp
  split
  · split
    · simp
    · simp
  · simp

theorem preflightResponse_status_mem (c : CORSConfig) (rh : List (String × String)) :
    (preflightResponse c rh).status ∈ ([200, 400] : List Nat) := by
  simp only [preflightResponse]
  split
  · simp
  · simp

/-- C5: the health-check operation has no failure path: the service
never produces a handler-error (5xx) response; every response status
comes from the fixed set a failure-free handler and its hosting layer
can emit. -/
theorem service_no_failure_path (req : Request) :
    (serviceApp req).status ∈ ([200, 400, 404, 405] : List Nat) := by
  unfold serviceApp
  by_cases hpre : isPreflight req = true
  · rw [corsMiddleware_eq_preflight appCORSConfig routerApp req hpre]
    have := preflightResponse_status_mem appCORSConfig req.headers
    simp only [List.mem_cons, List.mem_singleton] at this ⊢
    tauto
  · have hpass := corsMiddleware_passthrough appCORSConfig routerApp req (by simpa using hpre)
    rw [hpass.1]
    have := routerApp_status_mem req
    simp only [List.mem_cons, List.mem_singleton] at this ⊢
    tauto

/-- C6: a request to /api/v1/health-check whose method is not GET and
which is not a CORS preflight receives the hosting layer's
405 Method Not Allowed response. -/
theorem non_get_gets_405 (req : Request) (hp : req.path = healthPath)
    (hm : req.method ≠ "GET") (hnp : isPreflight req = false) :
    (serviceApp req).status = 405 ∧ (serviceApp req).body = methodNotAllowedBody := by
  have hpass := corsMiddleware_passthrough appCORSConfig routerApp req hnp
  unfold serviceApp
  rw [hpass.1, hpass.2, routerApp_other_method req hm hp]
  exact ⟨rfl, rfl⟩

/-- Witness for C6 at a concrete POST request. -/
theorem non_get_gets_405_witness :
    (serviceApp ⟨"POST", "/api/v1/health-check", [], ""⟩).status = 405
      ∧ (serviceApp ⟨"POST", "/api/v1/health-check", [], ""⟩).body = methodNotAllowedBody :=
  non_get_gets_405 ⟨"POST", "/api/v1/health-check", [], ""⟩ rfl (by decide) rfl

end Snowydudes

namespace Snowydudes

/-! ### Header-list membership lemmas -/

theorem mem_setHeader_self (hs : List (String × String)) (nm v : String) :
    (nm, v) ∈ setHeader hs nm v := by
  simp [setHeader]

theorem mem_setHeader_of_ne (hs : List (String × String)) (k v nm v' : String)
    (hk : k ≠ nm) (h : (k, v) ∈ hs) : (k, v) ∈ setHeader hs nm v' := by
  unfold setHeader
  refine List.mem_append.mpr (Or.inl (List.mem_filter.mpr ⟨h, ?_⟩))
  simpa using hk

theorem not_mem_setHeader (hs : List (String × String)) (k v nm v' : String)
    (hk : k ≠ nm) (h : (k, v) ∉ hs) : (k, v) ∉ setHeader hs nm v' := by
  unfold setHeader
  intro hc
  rcases List.mem_append.mp hc with hl | hr
  · exact h (List.mem_filter.mp hl).1
  · rw [List.mem_singleton] at hr
    exact hk (congrArg Prod.fst hr)

theorem mem_addVaryOrigin (hs : List (String × String)) (k v : String)
    (hk : k ≠ "vary") (h : (k, v) ∈ hs) : (k, v) ∈ addVaryOrigin hs := by
  unfold addVaryOrigin
  cases respHeaderGet hs "vary" with
  | none => exact mem_setHeader_of_ne hs k v "vary" _ hk h
  | some w => exact mem_setHeader_of_ne hs k v "vary" _ hk h

theorem not_mem_addVaryOrigin (hs : List (String × String)) (k v : String)
    (hk : k ≠ "vary") (h : (k, v) ∉ hs) : (k, v) ∉ addVaryOrigin hs := by
  unfold addVaryOrigin
  cases respHeaderGet hs "vary" with
  | none => exact not_mem_setHeader hs k v "vary" _ hk h
  | some w => exact not_mem_setHeader hs k v "vary" _ hk h

/-! ### Computed facts about the configured policy -/

theorem appCORS_allowAllOrigins : allowAllOrigins appCORSConfig = false := by decide

theorem appCORS_explicit : preflightExplicitAllowOrigin appCORSConfig = true := by decide

theorem appCORS_allowAllHeaders : allowAllHeaders appCORSConfig = true := by decide

theorem appCORS_simpleHeaders :
    simpleHeaders appCORSConfig = [("access-control-allow-credentials", "true")] := rfl

theorem appCORS_base :
    preflightHeadersBase appCORSConfig =
      [("vary", "Origin"),
       ("access-control-allow-methods", "DELETE, GET, HEAD, OPTIONS, PATCH, POST, PUT"),
       ("access-control-max-age", "600"),
       ("access-control-allow-credentials", "true")] := rfl

theorem appCORS_allowed_origin :
    isAllowedOrigin appCORSConfig "http://localhost:5173" = true := by decide

theorem appCORS_not_allowed (o : String) (h : o ≠ "http://localhost:5173") :
    isAllowedOrigin appCORSConfig o = false := by
  simp only [isAllowedOrigin, allowAllOrigins, appCORSConfig, List.contains_cons,
    List.contains_nil, Bool.or_false]
  simp [h]

theorem corsMiddleware_eq_simple (c : CORSConfig) (app : Request → Response) (req : Request)
    (o : String) (hO : headerGet req.headers "origin" = some o) (h : isPreflight req = false) :
    corsMiddleware c app req = simpleWrap c req.headers (app req) := by
  have hc : (req.method == "OPTIONS"
      && (headerGet req.headers "access-control-request-method").isSome) = false := by
    unfold isPreflight at h
    rw [hO] at h
    simpa using h
  simp [corsMiddleware, hO, hc]

/-! ### C3: the configured origin is allowed -/

theorem preflight_allows_configured_origin (rh : List (String × String))
    (h : headerGet rh "origin" = some "http://localhost:5173") :
    ("access-control-allow-origin", "http://localhost:5173")
        ∈ (preflightResponse appCORSConfig rh).headers
    ∧ ("access-control-allow-credentials", "true")
        ∈ (preflightResponse appCORSConfig rh).headers := by
  have hOk : preflightOriginOk appCORSConfig rh = true := by
    unfold preflightOriginOk
    rw [h]
    simpa using appCORS_allowed_origin
  have h1 : preflightHs1 appCORSConfig rh
      = setHeader (preflightHeadersBase appCORSConfig) "access-control-allow-origin"
          "http://localhost:5173" := by
    unfold preflightHs1
    rw [hOk, appCORS_explicit, h]
    simp
  have macao1 : ("access-control-allow-origin", "http://localhost:5173")
      ∈ preflightHs1 appCORSConfig rh := by
    rw [h1]
    exact mem_setHeader_self _ _ _
  have macac1 : ("access-control-allow-credentials", "true")
      ∈ preflightHs1 appCORSConfig rh := by
    rw [h1]
    refine mem_setHeader_of_ne _ _ _ _ _ (by decide) ?_
    rw [appCORS_base]
    simp
  have hs2p : ∀ k v, k ≠ "access-control-allow-headers"
      → (k, v) ∈ preflightHs1 appCORSConfig rh → (k, v) ∈ preflightHs2 appCORSConfig rh := by
    intro k v hk hm
    unfold preflightHs2
    cases headerGet rh "access-control-request-headers" with
    | none => exact hm
    | some x =>
      rw [appCORS_allowAllHeaders]
      simpa using mem_setHeader_of_ne _ k v "access-control-allow-headers" x hk hm
  have hresp : (preflightResponse appCORSConfig rh).headers
      = setHeader (preflightHs2 appCORSConfig rh) "content-type" "text/plain; charset=utf-8" := by
    unfold preflightResponse
    split
    · rfl
    · rfl
  constructor
  · rw [hresp]
    exact mem_setHeader_of_ne _ _ _ _ _ (by decide) (hs2p _ _ (by decide) macao1)
  · rw [hresp]
    exact mem_setHeader_of_ne _ _ _ _ _ (by decide) (hs2p _ _ (by decide) macac1)

theorem simpleWrapHeaders_allowed (rh respH : List (String × String))
    (h : headerGet rh "origin" = some "http://localhost:5173") :
    simpleWrapHeaders appCORSConfig rh respH
      = addVaryOrigin (setHeader (setHeader respH "access-control-allow-credentials" "true")
          "access-control-allow-origin" "http://localhost:5173") := by
  unfold simpleWrapHeaders
  rw [h]
  simp [appCORS_allowAllOrigins, appCORS_allowed_origin, appCORS_simpleHeaders]

/-- C3: every request whose Origin header is http://localhost:5173 —
preflight or not — receives both Access-Control-Allow-Origin:
http://localhost:5173 and Access-Control-Allow-Credentials: true. -/
theorem cors_allows_configured_origin (req : Request)
    (h : headerGet req.headers "origin" = some "http://localhost:5173") :
    ("access-control-allow-origin", "http://localhost:5173") ∈ (serviceApp req).headers
    ∧ ("access-control-allow-credentials", "true") ∈ (serviceApp req).headers := by
  unfold serviceApp
  by_cases hpre : isPreflight req = true
  · rw [corsMiddleware_eq_preflight appCORSConfig routerApp req hpre]
    exact preflight_allows_configured_origin req.headers h
  · rw [corsMiddleware_eq_simple appCORSConfig routerApp req _ h (by simpa using hpre)]
    show _ ∈ simpleWrapHeaders appCORSConfig req.headers (routerApp req).headers
      ∧ _ ∈ simpleWrapHeaders appCORSConfig req.headers (routerApp req).headers
    rw [simpleWrapHeaders_allowed req.headers (routerApp req).headers h]
    constructor
    · exact mem_addVaryOrigin _ _ _ (by decide) (mem_setHeader_self _ _ _)
    · exact mem_addVaryOrigin _ _ _ (by decide)
        (mem_setHeader_of_ne _ _ _ _ _ (by decide) (mem_setHeader_self _ _ _))

/-- Witness for C3 at a concrete preflight request. -/
theorem cors_allows_configured_origin_witness :
    ("access-control-allow-origin", "http://localhost:5173")
        ∈ (serviceApp ⟨"OPTIONS", "/api/v1/health-check",
            [("Origin", "http://localhost:5173"), ("Access-Control-Request-Method", "GET")], ""⟩).headers
    ∧ ("access-control-allow-credentials", "true")
        ∈ (serviceApp ⟨"OPTIONS", "/api/v1/health-check",
            [("Origin", "http://localhost:5173"), ("Access-Control-Request-Method", "GET")], ""⟩).headers :=
  cors_allows_configured_origin
    ⟨"OPTIONS", "/api/v1/health-check",
      [("Origin", "http://localhost:5173"), ("Access-Control-Request-Method", "GET")], ""⟩
    (by decide)

/-! ### C4: any other origin is not echoed -/

theorem routerApp_no_acao (req : Request) (o : String) :
    ("access-control-allow-origin", o) ∉ (routerApp req).headers := by
  unfold routerApp
  split
  · split
    · simp
    · simp
  · simp

/-- C4: a request whose Origin header is anything other than
http://localhost:5173 never receives an Access-Control-Allow-Origin
header echoing that origin, and the configured allow-list is exactly
the single origin http://localhost:5173. -/
theorem cors_blocks_other_origins (req : Request) (o : String)
    (h : headerGet req.headers "origin" = some o) (hne : o ≠ "http://localhost:5173") :
    ("access-control-allow-origin", o) ∉ (serviceApp req).headers
    ∧ appCORSConfig.allow_origins = ["http://localhost:5173"] := by
  refine ⟨?_, rfl⟩
  unfold serviceApp
  by_cases hpre : isPreflight req = true
  · rw [corsMiddleware_eq_preflight appCORSConfig routerApp req hpre]
    have hOk : preflightOriginOk appCORSConfig req.headers = false := by
      unfold preflightOriginOk
      rw [h]
      simpa using appCORS_not_allowed o hne
    have h1 : preflightHs1 appCORSConfig req.headers = preflightHeadersBase appCORSConfig := by
      unfold preflightHs1
      rw [hOk]
      simp
    have nb : ("access-control-allow-origin", o) ∉ preflightHeadersBase appCORSConfig := by
      rw [appCORS_base]
      simp
    have n1 : ("access-control-allow-origin", o) ∉ preflightHs1 appCORSConfig req.headers := by
      rw [h1]; exact nb
    have n2 : ("access-control-allow-origin", o) ∉ preflightHs2 appCORSConfig req.headers := by
      unfold preflightHs2
      cases headerGet req.headers "access-control-request-headers" with
      | none => exact n1
      | some x =>
        rw [appCORS_allowAllHeaders]
        simpa using not_mem_setHeader _ _ _ "access-control-allow-headers" x (by decide) n1
    have hresp : (preflightResponse appCORSConfig req.headers).headers
        = setHeader (preflightHs2 appCORSConfig req.headers) "content-type"
            "text/plain; charset=utf-8" := by
      unfold preflightResponse
      split
      · rfl
      · rfl
    rw [hresp]
    exact not_mem_setHeader _ _ _ _ _ (by decide) n2
  · rw [corsMiddleware_eq_simple appCORSConfig routerApp req _ h (by simpa using hpre)]
    show ("access-control-allow-origin", o)
      ∉ simpleWrapHeaders appCORSConfig req.headers (routerApp req).headers
    have e : simpleWrapHeaders appCORSConfig req.headers (routerApp req).headers
        = setHeader (routerApp req).headers "access-control-allow-credentials" "true" := by
      unfold simpleWrapHeaders
      rw [h]
      simp [appCORS_allowAllOrigins, appCORS_simpleHeaders, appCORS_not_allowed o hne]
    rw [e]
    exact not_mem_setHeader _ _ _ _ _ (by decide) (routerApp_no_acao req o)

/-- Witness for C4 at a concrete request from another origin. -/
theorem cors_blocks_other_origins_witness :
    ("access-control-allow-origin", "http://evil.example")
        ∉ (serviceApp ⟨"GET", "/api/v1/health-check",
            [("Origin", "http://evil.example")], ""⟩).headers
    ∧ appCORSConfig.allow_origins = ["http://localhost:5173"] :=
  cors_blocks_other_origins
    ⟨"GET", "/api/v1/health-check", [("Origin", "http://evil.example")], ""⟩
    "http://evil.example" (by decide) (by decide)

end Snowydudes

namespace Snowydudes

/-! ### C7: the policy is applied uniformly across routes -/

theorem corsMiddleware_no_origin (c : CORSConfig) (app : Request → Response) (req : Request)
    (hO : headerGet req.headers "origin" = none) :
    corsMiddleware c app req = app req := by
  simp [corsMiddleware, hO]

theorem corsHeaders_routerApp (req : Request) : corsHeaders (routerApp req) = [] := by
  unfold routerApp
  split
  · split
    · rfl
    · rfl
  · rfl

theorem corsHeaders_simple_router (rh : List (String × String)) (req : Request) :
    corsHeaders (simpleWrap appCORSConfig rh (routerApp req))
      = if isAllowedOrigin appCORSConfig ((headerGet rh "origin").getD "") then
          [("access-control-allow-credentials", "true"),
           ("access-control-allow-origin", (headerGet rh "origin").getD "")]
        else [("access-control-allow-credentials", "true")] := by
  have f1 : isCorsHeaderName "content-type" = false := by decide
  have f2 : isCorsHeaderName "allow" = false := by decide
  have f3 : isCorsHeaderName "vary" = false := by decide
  have t1 : isCorsHeaderName "access-control-allow-credentials" = true := by decide
  have t2 : isCorsHeaderName "access-control-allow-origin" = true := by decide
  by_cases hA : isAllowedOrigin appCORSConfig ((headerGet rh "origin").getD "") = true
  · unfold routerApp
    split
    · split
      · simp [corsHeaders, simpleWrap, simpleWrapHeaders, setHeader, addVaryOrigin, respHeaderGet,
          appCORS_simpleHeaders, appCORS_allowAllOrigins, hA, f1, f2, f3, t1, t2]
      · simp [corsHeaders, simpleWrap, simpleWrapHeaders, setHeader, addVaryOrigin, respHeaderGet,
          appCORS_simpleHeaders, appCORS_allowAllOrigins, hA, f1, f2, f3, t1, t2]
    · simp [corsHeaders, simpleWrap, simpleWrapHeaders, setHeader, addVaryOrigin, respHeaderGet,
        appCORS_simpleHeaders, appCORS_allowAllOrigins, hA, f1, f2, f3, t1, t2]
  · rw [Bool.not_eq_true] at hA
    unfold routerApp
    split
    · split
      · simp [corsHeaders, simpleWrap, simpleWrapHeaders, setHeader, addVaryOrigin, respHeaderGet,
          appCORS_simpleHeaders, appCORS_allowAllOrigins, hA, f1, f2, f3, t1, t2]
      · simp [corsHeaders, simpleWrap, simpleWrapHeaders, setHeader, addVaryOrigin, respHeaderGet,
          appCORS_simpleHeaders, appCORS_allowAllOrigins, hA, f1, f2, f3, t1, t2]
    · simp [corsHeaders, simpleWrap, simpleWrapHeaders, setHeader, addVaryOrigin, respHeaderGet,
        appCORS_simpleHeaders, appCORS_allowAllOrigins, hA, f1, f2, f3, t1, t2]

/-- C7: the CORS policy is a cross-cutting concern: for a fixed
method, header list and body, the access-control response headers are
the same whatever path is requested — the policy is applied to every
route, not only to the health-check route. -/
theorem cors_policy_uniform (m p₁ p₂ : String) (hs : List (String × String)) (b₁ b₂ : String) :
    corsHeaders (serviceApp ⟨m, p₁, hs, b₁⟩) = corsHeaders (serviceApp ⟨m, p₂, hs, b₂⟩) := by
  unfold serviceApp
  by_cases hpre : isPreflight ⟨m, p₁, hs, b₁⟩ = true
  · rw [corsMiddleware_eq_preflight appCORSConfig routerApp _ hpre,
      corsMiddleware_eq_preflight appCORSConfig routerApp _
        (show isPreflight ⟨m, p₂, hs, b₂⟩ = true from hpre)]
  · have hnp : isPreflight ⟨m, p₁, hs, b₁⟩ = false := by simpa using hpre
    cases hO : headerGet hs "origin" with
    | none =>
      rw [corsMiddleware_no_origin appCORSConfig routerApp _ hO,
        corsMiddleware_no_origin appCORSConfig routerApp _ hO,
        corsHeaders_routerApp, corsHeaders_routerApp]
    | some o =>
      rw [corsMiddleware_eq_simple appCORSConfig routerApp _ o hO hnp,
        corsMiddleware_eq_simple appCORSConfig routerApp _ o hO
          (show isPreflight ⟨m, p₂, hs, b₂⟩ = false from hnp),
        corsHeaders_simple_router hs ⟨m, p₁, hs, b₁⟩,
        corsHeaders_simple_router hs ⟨m, p₂, hs, b₂⟩]

/-! ### C8: the policy is immutable after startup -/

theorem processRequests_id (s : ServiceState) (reqs : List Request) :
    processRequests s reqs = s := by
  induction reqs generalizing s with
  | nil => rfl
  | cons a t ih => exact ih s

/-- C8: after handling any trace of requests from startup, the CORS
policy is unchanged and still holds the literal startup values:
allow-list [http://localhost:5173], credentials allowed, wildcard
methods and headers. -/
theorem cors_policy_immutable (reqs : List Request) :
    (processRequests startupState reqs).cors = appCORSConfig
    ∧ (processRequests startupState reqs).cors.allow_origins = ["http://localhost:5173"]
    ∧ (processRequests startupState reqs).cors.allow_credentials = true
    ∧ (processRequests startupState reqs).cors.allow_methods = ["*"]
    ∧ (processRequests startupState reqs).cors.allow_headers = ["*"] := by
  rw [processRequests_id]
  exact ⟨rfl, rfl, rfl, rfl, rfl⟩

end Snowydudes

namespace Snowydudes

/-! ### C9: the scaffolding template versus the checked-in main.py -/

/-- The string literal that setup_project passes to create_file for
backend/app/main.py (src/setup-script.py lines 22-39). -/
def mainPyTemplate : String :=
  "from fastapi import FastAPI\nfrom fastapi.middleware.cors import CORSMiddleware\n\napp = FastAPI(title=\"Fantasy Football League API\")\n\napp.add_middleware(\n    CORSMiddleware,\n    allow_origins=[\"http://localhost:5173\"],\n    allow_credentials=True,\n    allow_methods=[\"*\"],\n    allow_headers=[\"*\"],\n)\n\n@app.get(\"/api/v1/health-check\")\nasync def health_check():\n    return \x7b\"status\": \"healthy\"\x7d\n"

/-- The exact content of the checked-in file
src/fantasy-football-app/backend/app/main.py (all 17 lines, including
its final blank line). -/
def mainPyFile : String :=
  "from fastapi import FastAPI\nfrom fastapi.middleware.cors import CORSMiddleware\n\napp = FastAPI(title=\"Fantasy Football League API\")\n\napp.add_middleware(\n    CORSMiddleware,\n    allow_origins=[\"http://localhost:5173\"],\n    allow_credentials=True,\n    allow_methods=[\"*\"],\n    allow_headers=[\"*\"],\n)\n\n@app.get(\"/api/v1/health-check\")\nasync def health_check():\n    return \x7b\"status\": \"healthy\"\x7d\n\n"

set_option maxRecDepth 16384 in
/-- Counterexample to C9 as stated: the checked-in main.py is not
character-for-character identical to the template setup_project
writes. -/
theorem mainPy_template_ne_file : mainPyFile ≠ mainPyTemplate := by decide

set_option maxRecDepth 16384 in
/-- C9 (amended): the template equals the checked-in file up to one
extra trailing newline in the checked-in file — appending a single
newline to the template yields exactly the file, so the generated
service and the checked-in service coincide line for line. -/
theorem mainPy_template_file_up_to_newline :
    mainPyTemplate ++ "\n" = mainPyFile := by decide

end Snowydudes

namespace Snowydudes

/-! ### C10: create_file of setup-script.py -/

/-- The file-system state the scaffolding script manipulates: a map
from paths (component lists) to file contents, and the set of existing
directories. -/
structure FS where
  files : List String → Option String
  dirs : List String → Bool

/-- Path.mkdir(parents=True, exist_ok=True) on a directory path: the
directory and all its ancestors exist afterwards; files and other
directories are untouched (setup-script.py line 8). -/
def mkdirParents (fs : FS) (d : List String) : FS :=
  { fs with dirs := fun q => if q.isPrefixOf d then true else fs.dirs q }

/-- create_file of setup-script.py lines 6-10: create the parent
directory chain, then open the file in write mode (truncating any
previous content) and write content. -/
def create_file (fs : FS) (path : List String) (content : String) : FS :=
  let fs1 := mkdirParents fs path.dropLast
  { fs1 with files := fun q => if q = path then some content else fs1.files q }

/-- C10: after create_file the file at path holds exactly content and
every other file is untouched; the parent directory chain exists (and
other directories are untouched); and create_file is idempotent:
running it twice with the same arguments leaves the same file-system
state as running it once. -/
theorem create_file_spec (fs : FS) (path : List String) (content : String) :
    (∀ q, (create_file fs path content).files q
        = if q = path then some content else fs.files q)
    ∧ (∀ q, (create_file fs path content).dirs q
        = if q.isPrefixOf path.dropLast then true else fs.dirs q)
    ∧ create_file (create_file fs path content) path content = create_file fs path content := by
  refine ⟨fun q => rfl, fun q => rfl, ?_⟩
  cases fs with
  | mk f d =>
    unfold create_file mkdirParents
    simp only [FS.mk.injEq]
    constructor
    · funext q
      by_cases h : q = path <;> simp [h]
    · funext q
      by_cases h : q.isPrefixOf path.dropLast = true <;> simp [h]

end Snowydudes
